import Mathlib

/-!
Shallow embedding of the task-scheduling / adaptive-execution engine of the
repository (app/models/execution_models.py, app/execution/queue_manager.py,
app/execution/profile_executor.py, app/execution/managers/cluster_executor.py,
app/execution/cluster_executor.py), together with theorems settling the
frozen claims about it.

Modelling conventions:
- Python float delays and datetime instants are embedded as rationals.
- Python values that can be None are embedded as Option.
- A Python expression that raises is embedded in Except PyError.
- asyncio futures are embedded as an explicit FutureState value.
-/

/-- Python runtime error surrogate.  The only error the embedded code can
raise is the TypeError produced by ordering plain-Enum members. -/
inductive PyError where
  | typeError
deriving DecidableEq, Repr

/-- TaskPriority from app/models/execution_models.py: a plain Python Enum
with members CRITICAL=1, HIGH=2, NORMAL=3, LOW=4, BACKGROUND=5. -/
inductive TaskPriority where
  | critical
  | high
  | normal
  | low
  | background
deriving DecidableEq, Repr

/-- Numeric value of each TaskPriority member. -/
def TaskPriority.value : TaskPriority → Nat
  | .critical => 1
  | .high => 2
  | .normal => 3
  | .low => 4
  | .background => 5

/-- TaskStatus from app/models/execution_models.py. -/
inductive TaskStatus where
  | pending
  | processing
  | completed
  | failed
  | cancelled
deriving DecidableEq, Repr

/-- State of an asyncio.Future attached to a task: unresolved, resolved with
a result by set_result, or resolved with an exception by set_exception. -/
inductive FutureState where
  | pending
  | resolvedOk (result : Option String)
  | resolvedErr (error : String)
deriving DecidableEq, Repr

/-- Future.done(): true once a result or exception has been set. -/
def FutureState.done : FutureState → Bool
  | .pending => false
  | .resolvedOk _ => true
  | .resolvedErr _ => true

/-- ProfileTask from app/models/execution_models.py.  Payload is kept
opaque (dropped).  The dependencies field does not appear in the dataclass
under src/, but the task class version used by the queue and the profile
executor has it: app/execution/state_manager.py both reads task.dependencies
and constructs ProfileTask(..., dependencies=...), so the field is kept here
as those callers require, with an empty default. -/
structure ProfileTask where
  task_id : String
  profile_id : String := ""
  action : String := ""
  priority : TaskPriority := .normal
  created_at : ℚ := 0
  scheduled_at : Option ℚ := none
  attempts : Nat := 0
  max_attempts : Nat := 3
  status : TaskStatus := .pending
  result : Option String := none
  error : Option String := none
  started_at : Option ℚ := none
  completed_at : Option ℚ := none
  timeout : ℚ := 30
  retry_delay : ℚ := 5
  bypass_adaptive_delay : Bool := false
  result_future : Option FutureState := none
  dependencies : List String := []
deriving DecidableEq, Repr

/-- ProfileTask.__lt__ (app/models/execution_models.py lines 77-87).  When
the priorities differ the Python code evaluates
self.priority < other.priority; TaskPriority is a plain Enum, whose members
do not support ordered comparison, so that expression raises TypeError.
When the priorities are equal the creation timestamps are compared. -/
def ProfileTask.lt (t other : ProfileTask) : Except PyError Bool :=
  if t.priority ≠ other.priority then .error .typeError
  else .ok (decide (t.created_at < other.created_at))

/-- Modelled from the spec: ProfileTask.can_execute is called by
PriorityTaskQueue.get and ProfileExecutor._execute_profile but its
definition (on the task class version that carries dependencies) is not
under src/.  The spec states: a task is executable at pop time iff all its
dependency ids are present in the caller-visible completed set for that
context and, if scheduled_at is set, the current time has reached it. -/
def ProfileTask.can_execute (t : ProfileTask) (completed : List String) (now : ℚ) : Bool :=
  t.dependencies.all (fun d => decide (d ∈ completed)) &&
    (match t.scheduled_at with
     | none => true
     | some ts => decide (ts ≤ now))

/-- Example task with CRITICAL priority, used as a concrete input. -/
def critTask : ProfileTask :=
  { task_id := "t1", profile_id := "p1", priority := .critical, created_at := 0 }

/-- Example task with NORMAL priority, used as a concrete input. -/
def normTask : ProfileTask :=
  { task_id := "t2", profile_id := "p1", priority := .normal, created_at := 1 }

/-- Example task equal in priority to normTask but created later. -/
def normTaskLater : ProfileTask :=
  { task_id := "t3", profile_id := "p1", priority := .normal, created_at := 2 }

/-- C2: the claim states that ProfileTask.__lt__ orders any two tasks by
priority ordinal ascending, tie-broken by created_at ascending.  On the
code this fails: TaskPriority is a plain Enum, so comparing the priorities
of two tasks with distinct priorities raises TypeError instead of
returning the ordinal comparison; only the equal-priority tie-break works
as documented.  Evaluated here on concrete tasks: a CRITICAL task compared
with a NORMAL task raises, while two NORMAL tasks compare by created_at. -/
theorem profileTask_lt_raises_across_priorities :
    ProfileTask.lt critTask normTask = .error .typeError ∧
    ProfileTask.lt normTask critTask = .error .typeError ∧
    ProfileTask.lt normTask normTaskLater = .ok true ∧
    ProfileTask.lt normTaskLater normTask = .ok false := by
  exact ⟨rfl, rfl, rfl, rfl⟩

/-- ProxyClusterState from app/models/execution_models.py: the per-resource
delay/health state owned by one Cluster. -/
structure ProxyClusterState where
  proxy_id : String
  active_profiles : List String
  current_delay : ℚ := 1
  base_delay : ℚ := 1
  last_request_time : Option ℚ := none
  success_count : Nat := 0
  error_count : Nat := 0
  rate_limit_until : Option ℚ := none
  is_healthy : Bool := true
deriving DecidableEq, Repr

/-- TaskExecutionResult from app/execution/managers/cluster_executor.py. -/
structure TaskExecutionResult where
  success : Bool
  result : Option String := none
  error : Option String := none
deriving DecidableEq, Repr

/-- ProxyStateManager.MAX_DELAY. -/
def MAX_DELAY : ℚ := 16

/-- ProxyStateManager.DELAY_DECREASE_FACTOR (0.95). -/
def DELAY_DECREASE_FACTOR : ℚ := 19 / 20

/-- ProxyStateManager.DELAY_DECREASE_THRESHOLD. -/
def DELAY_DECREASE_THRESHOLD : Nat := 10

/-- ProxyStateManager.DELAY_INCREASE_RATE_LIMIT. -/
def DELAY_INCREASE_RATE_LIMIT : ℚ := 2

/-- ProxyStateManager.DELAY_INCREASE_CONNECTION (1.5). -/
def DELAY_INCREASE_CONNECTION : ℚ := 3 / 2

/-- ProxyStateManager.DELAY_INCREASE_GENERAL (1.2). -/
def DELAY_INCREASE_GENERAL : ℚ := 6 / 5

/-- Python str.lower, character by character. -/
def lowerStr (s : String) : String := String.mk (s.data.map Char.toLower)

/-- Python substring membership test (pat in s). -/
def strContainsSub (s pat : String) : Bool :=
  (List.range (s.data.length + 1)).any (fun i => pat.data.isPrefixOf (s.data.drop i))

/-- ProxyStateManager.RATE_LIMIT_KEYWORDS. -/
def RATE_LIMIT_KEYWORDS : List String := ["429", "rate"]

/-- ProxyStateManager.CONNECTION_ERROR_KEYWORDS. -/
def CONNECTION_ERROR_KEYWORDS : List String := ["timeout", "connection"]

/-- ProxyStateManager._is_rate_limit_error: a falsy error (None or empty)
is not a rate-limit error; otherwise the lowercased error text is searched
for the rate-limit keywords. -/
def is_rate_limit_error (error : Option String) : Bool :=
  match error with
  | none => false
  | some e =>
    if e = "" then false
    else RATE_LIMIT_KEYWORDS.any (fun k => strContainsSub (lowerStr e) k)

/-- ProxyStateManager._is_connection_error. -/
def is_connection_error (error : Option String) : Bool :=
  match error with
  | none => false
  | some e =>
    if e = "" then false
    else CONNECTION_ERROR_KEYWORDS.any (fun k => strContainsSub (lowerStr e) k)

/-- ProxyStateManager._handle_rate_limit_error: double current_delay capped
at MAX_DELAY, then set rate_limit_until to now plus the new delay. -/
def handle_rate_limit_error (now : ℚ) (s : ProxyClusterState) : ProxyClusterState :=
  let d := min (s.current_delay * DELAY_INCREASE_RATE_LIMIT) MAX_DELAY
  { s with current_delay := d, rate_limit_until := some (now + d) }

/-- ProxyStateManager._handle_connection_error. -/
def handle_connection_error (s : ProxyClusterState) : ProxyClusterState :=
  { s with
    current_delay := min (s.current_delay * DELAY_INCREASE_CONNECTION) MAX_DELAY,
    is_healthy := false }

/-- ProxyStateManager._handle_general_error. -/
def handle_general_error (s : ProxyClusterState) : ProxyClusterState :=
  { s with current_delay := min (s.current_delay * DELAY_INCREASE_GENERAL) MAX_DELAY }

/-- ProxyStateManager._adjust_delay_on_error: classify the error text and
apply the matching backoff. -/
def adjust_delay_on_error (now : ℚ) (error : Option String) (s : ProxyClusterState) :
    ProxyClusterState :=
  if is_rate_limit_error error then handle_rate_limit_error now s
  else if is_connection_error error then handle_connection_error s
  else handle_general_error s

/-- ProxyStateManager._handle_failure: count the error; for a non-bypass
task run the classified backoff, for a bypass task only mark the resource
unhealthy on a connection-classified error. -/
def handle_failure (now : ℚ) (task : ProfileTask) (error : Option String)
    (s : ProxyClusterState) : ProxyClusterState :=
  let s1 := { s with error_count := s.error_count + 1 }
  if !task.bypass_adaptive_delay then adjust_delay_on_error now error s1
  else if is_connection_error error then { s1 with is_healthy := false }
  else s1

/-- ProxyStateManager._should_decrease_delay, evaluated after the success
counter has been incremented. -/
def should_decrease_delay (s : ProxyClusterState) : Bool :=
  s.success_count % DELAY_DECREASE_THRESHOLD == 0

/-- ProxyStateManager._decrease_delay: multiply by the decay factor,
floored at half the base delay. -/
def decrease_delay (s : ProxyClusterState) : ProxyClusterState :=
  { s with
    current_delay := max (s.current_delay * DELAY_DECREASE_FACTOR) (s.base_delay * (1 / 2)) }

/-- ProxyStateManager._handle_success: increment the success counter, then
for a non-bypass task decay the delay when the counter is a multiple of the
threshold. -/
def handle_success (task : ProfileTask) (s : ProxyClusterState) : ProxyClusterState :=
  let s1 := { s with success_count := s.success_count + 1 }
  if !task.bypass_adaptive_delay && should_decrease_delay s1 then decrease_delay s1 else s1

/-- ProxyStateManager.update_state: stamp the request time, then branch on
the execution outcome. -/
def update_state (now : ℚ) (task : ProfileTask) (res : TaskExecutionResult)
    (s : ProxyClusterState) : ProxyClusterState :=
  let s1 := { s with last_request_time := some now }
  if res.success then handle_success task s1 else handle_failure now task res.error s1

/-- TaskDelayCalculator._has_active_rate_limit: a set rate_limit_until that
is still in the future. -/
def has_active_rate_limit (now : ℚ) (s : ProxyClusterState) : Bool :=
  match s.rate_limit_until with
  | none => false
  | some r => decide (now < r)

/-- TaskDelayCalculator._calculate_rate_limit_delay: seconds remaining
until rate_limit_until (only called with an active limit). -/
def calculate_rate_limit_delay (now : ℚ) (s : ProxyClusterState) : ℚ :=
  s.rate_limit_until.getD 0 - now

/-- TaskDelayCalculator.calculate_delay: a bypass task sleeps exactly
base_delay; otherwise the sleep is current_delay, raised to the time
remaining on an active rate limit. -/
def calculate_delay (now : ℚ) (s : ProxyClusterState) (task : ProfileTask) : ℚ :=
  if task.bypass_adaptive_delay then s.base_delay
  else
    let delay := s.current_delay
    if has_active_rate_limit now s then max delay (calculate_rate_limit_delay now s)
    else delay

/-- Doubling a value already capped at 16 and re-capping equals capping the
doubled value: helper for iterated rate-limit backoff. -/
theorem min_cap_double (a : ℚ) : min (min a 16 * 2) 16 = min (a * 2) 16 := by
  rcases le_total a 16 with h | h
  · rw [min_eq_left h]
  · rw [min_eq_right h, min_eq_right (by norm_num : (16:ℚ) ≤ 16 * 2),
      min_eq_right (by linarith : (16:ℚ) ≤ a * 2)]

/-- Field computation: a rate-limit-classified failure of a non-bypass task
sets current_delay to the doubled value capped at MAX_DELAY. -/
theorem update_state_rl_delay (now : ℚ) (task : ProfileTask)
    (res : TaskExecutionResult) (s : ProxyClusterState)
    (hb : task.bypass_adaptive_delay = false)
    (hs : res.success = false)
    (herr : is_rate_limit_error res.error = true) :
    (update_state now task res s).current_delay = min (s.current_delay * 2) 16 := by
  simp [update_state, handle_failure, adjust_delay_on_error, handle_rate_limit_error,
    hs, hb, herr, DELAY_INCREASE_RATE_LIMIT, MAX_DELAY]

/-- Field computation: a rate-limit-classified failure of a non-bypass task
sets rate_limit_until to now plus the new current_delay. -/
theorem update_state_rl_until (now : ℚ) (task : ProfileTask)
    (res : TaskExecutionResult) (s : ProxyClusterState)
    (hb : task.bypass_adaptive_delay = false)
    (hs : res.success = false)
    (herr : is_rate_limit_error res.error = true) :
    (update_state now task res s).rate_limit_until =
      some (now + min (s.current_delay * 2) 16) := by
  simp [update_state, handle_failure, adjust_delay_on_error, handle_rate_limit_error,
    hs, hb, herr, DELAY_INCREASE_RATE_LIMIT, MAX_DELAY]

/-- C4: for every failure of a non-bypass task whose error text contains
"429" or "rate" (case-insensitive), the state update sets current_delay to
min(current_delay * 2, 16) — a strict increase while below the cap — and
sets rate_limit_until to now plus the new current_delay; three consecutive
such failures (at non-decreasing instants) double current_delay each time
up to the cap, and rate_limit_until advances monotonically. -/
theorem rate_limit_backoff (task : ProfileTask) (res : TaskExecutionResult)
    (s : ProxyClusterState) (now1 now2 now3 : ℚ)
    (hb : task.bypass_adaptive_delay = false)
    (hs : res.success = false)
    (herr : is_rate_limit_error res.error = true)
    (hpos : 0 < s.current_delay)
    (h12 : now1 ≤ now2) (h23 : now2 ≤ now3) :
    (update_state now1 task res s).current_delay = min (s.current_delay * 2) 16 ∧
    (update_state now2 task res (update_state now1 task res s)).current_delay =
      min (s.current_delay * 4) 16 ∧
    (update_state now3 task res (update_state now2 task res
        (update_state now1 task res s))).current_delay = min (s.current_delay * 8) 16 ∧
    (s.current_delay < 16 →
      s.current_delay < (update_state now1 task res s).current_delay) ∧
    (update_state now1 task res s).rate_limit_until =
      some (now1 + (update_state now1 task res s).current_delay) ∧
    (update_state now2 task res (update_state now1 task res s)).rate_limit_until =
      some (now2 + (update_state now2 task res (update_state now1 task res s)).current_delay) ∧
    (update_state now3 task res (update_state now2 task res
        (update_state now1 task res s))).rate_limit_until =
      some (now3 + (update_state now3 task res (update_state now2 task res
        (update_state now1 task res s))).current_delay) ∧
    now1 + (update_state now1 task res s).current_delay ≤
      now2 + (update_state now2 task res (update_state now1 task res s)).current_delay ∧
    now2 + (update_state now2 task res (update_state now1 task res s)).current_delay ≤
      now3 + (update_state now3 task res (update_state now2 task res
        (update_state now1 task res s))).current_delay := by
  have hd1 : (update_state now1 task res s).current_delay = min (s.current_delay * 2) 16 :=
    update_state_rl_delay now1 task res s hb hs herr
  have hd2 : (update_state now2 task res (update_state now1 task res s)).current_delay =
      min (s.current_delay * 4) 16 := by
    rw [update_state_rl_delay now2 task res _ hb hs herr, hd1, min_cap_double,
      show s.current_delay * 2 * 2 = s.current_delay * 4 by ring]
  have hd3 : (update_state now3 task res (update_state now2 task res
      (update_state now1 task res s))).current_delay = min (s.current_delay * 8) 16 := by
    rw [update_state_rl_delay now3 task res _ hb hs herr, hd2, min_cap_double,
      show s.current_delay * 4 * 2 = s.current_delay * 8 by ring]
  have hmono1 : min (s.current_delay * 2) 16 ≤ min (s.current_delay * 4) 16 :=
    min_le_min (by linarith) le_rfl
  have hmono2 : min (s.current_delay * 4) 16 ≤ min (s.current_delay * 8) 16 :=
    min_le_min (by linarith) le_rfl
  refine ⟨hd1, hd2, hd3, ?_, ?_, ?_, ?_, ?_, ?_⟩
  · intro hlt
    rw [hd1]
    exact lt_min (by linarith) hlt
  · rw [update_state_rl_until now1 task res s hb hs herr, hd1]
  · rw [update_state_rl_until now2 task res _ hb hs herr, hd2, hd1, min_cap_double,
      show s.current_delay * 2 * 2 = s.current_delay * 4 by ring]
  · rw [update_state_rl_until now3 task res _ hb hs herr, hd3, hd2, min_cap_double,
      show s.current_delay * 4 * 2 = s.current_delay * 8 by ring]
  · rw [hd1, hd2]
    exact add_le_add h12 hmono1
  · rw [hd2, hd3]
    exact add_le_add h23 hmono2


/-- Concrete rate-limited execution result used in witnesses. -/
def rlFailure : TaskExecutionResult :=
  { success := false, error := some "HTTP 429 Too Many Requests" }

/-- Fresh per-proxy state (all dataclass defaults). -/
def proxyInit : ProxyClusterState := { proxy_id := "proxy-1", active_profiles := [] }

/-- State after one rate-limited failure at time 0. -/
def rlS1 : ProxyClusterState := update_state 0 normTask rlFailure proxyInit

/-- State after a second rate-limited failure at time 1. -/
def rlS2 : ProxyClusterState := update_state 1 normTask rlFailure rlS1

/-- State after a third rate-limited failure at time 2. -/
def rlS3 : ProxyClusterState := update_state 2 normTask rlFailure rlS2

/-- Witness for rate_limit_backoff at a concrete input: a fresh state hit
by three failures carrying a 429 message at times 0, 1, 2. -/
theorem rate_limit_backoff_witness :
    normTask.bypass_adaptive_delay = false ∧
    rlFailure.success = false ∧
    is_rate_limit_error rlFailure.error = true ∧
    0 < proxyInit.current_delay ∧
    (rlS1.current_delay = min (proxyInit.current_delay * 2) 16 ∧
     rlS2.current_delay = min (proxyInit.current_delay * 4) 16 ∧
     rlS3.current_delay = min (proxyInit.current_delay * 8) 16 ∧
     (proxyInit.current_delay < 16 → proxyInit.current_delay < rlS1.current_delay) ∧
     rlS1.rate_limit_until = some (0 + rlS1.current_delay) ∧
     rlS2.rate_limit_until = some (1 + rlS2.current_delay) ∧
     rlS3.rate_limit_until = some (2 + rlS3.current_delay) ∧
     0 + rlS1.current_delay ≤ 1 + rlS2.current_delay ∧
     1 + rlS2.current_delay ≤ 2 + rlS3.current_delay) :=
  ⟨rfl, rfl, by decide, by decide,
    rate_limit_backoff normTask rlFailure proxyInit 0 1 2 rfl rfl (by decide) (by decide)
      (by decide) (by decide)⟩
/-- State after nine straight successes of a non-bypass task on a fresh
proxy state: the success counter reads 9 and the delay is untouched. -/
def c5S9 : ProxyClusterState :=
  handle_success normTask (handle_success normTask (handle_success normTask
    (handle_success normTask (handle_success normTask (handle_success normTask
      (handle_success normTask (handle_success normTask
        (handle_success normTask proxyInit))))))))

/-- c5S9 followed by one generic (non-rate-limit, non-connection) failure. -/
def c5SF : ProxyClusterState := handle_failure 0 normTask (some "boom") c5S9

/-- c5SF followed by a single further success — only one consecutive
success after the failure. -/
def c5SS : ProxyClusterState := handle_success normTask c5SF

/-- C5 counterexample: the claim ties the delay decay to every Nth
*consecutive* success, but the code tests the *cumulative* success counter
(success_count % 10 == 0), which failures never reset.  Concretely: after
nine successes and one interrupting failure, the very next success — the
first consecutive success — already decreases current_delay (from 6/5 to
57/50), which the claim as stated forbids. -/
theorem success_decay_not_consecutive_cex :
    c5S9.success_count = 9 ∧ c5S9.current_delay = 1 ∧
    c5SF.error_count = 1 ∧ c5SF.current_delay = 6 / 5 ∧
    c5SS.success_count = 10 ∧ c5SS.current_delay = 57 / 50 ∧
    c5SS.current_delay < c5SF.current_delay := by
  have hb1 : is_rate_limit_error (some "boom") = false := rfl
  have hb2 : is_connection_error (some "boom") = false := rfl
  unfold c5SS c5SF c5S9
  norm_num [handle_success, handle_failure, adjust_delay_on_error, handle_general_error,
    should_decrease_delay, decrease_delay, hb1, hb2, proxyInit, normTask,
    DELAY_DECREASE_THRESHOLD, DELAY_DECREASE_FACTOR, DELAY_INCREASE_GENERAL, MAX_DELAY,
    min_def, max_def]

/-- C5 amended: on every success of a non-bypass task the success counter
is incremented, and whenever the incremented *cumulative* success counter
(never reset by failures) is a multiple of 10, current_delay is multiplied
by 0.95 and floored at base_delay * 0.5 — otherwise it is unchanged — so
current_delay never drops below base_delay * 0.5 once at or above it. -/
theorem success_decay_cumulative (task : ProfileTask) (s : ProxyClusterState)
    (hb : task.bypass_adaptive_delay = false) :
    (handle_success task s).success_count = s.success_count + 1 ∧
    ((s.success_count + 1) % 10 = 0 →
      (handle_success task s).current_delay =
        max (s.current_delay * (19 / 20)) (s.base_delay * (1 / 2))) ∧
    ((s.success_count + 1) % 10 ≠ 0 →
      (handle_success task s).current_delay = s.current_delay) ∧
    (s.base_delay * (1 / 2) ≤ s.current_delay →
      s.base_delay * (1 / 2) ≤ (handle_success task s).current_delay) := by
  refine ⟨?_, fun h => ?_, fun h => ?_, fun hle => ?_⟩
  · by_cases h : (s.success_count + 1) % 10 = 0 <;>
      simp [handle_success, should_decrease_delay, decrease_delay, hb,
        DELAY_DECREASE_THRESHOLD, h]
  · simp [handle_success, should_decrease_delay, decrease_delay, hb,
      DELAY_DECREASE_THRESHOLD, DELAY_DECREASE_FACTOR, h]
  · simp [handle_success, should_decrease_delay, decrease_delay, hb,
      DELAY_DECREASE_THRESHOLD, h]
  · by_cases h : (s.success_count + 1) % 10 = 0
    · simp only [handle_success, should_decrease_delay, decrease_delay, hb,
        DELAY_DECREASE_THRESHOLD, DELAY_DECREASE_FACTOR]
      simp [h, le_max_iff]
    · simpa [handle_success, should_decrease_delay, decrease_delay, hb,
        DELAY_DECREASE_THRESHOLD, h] using hle

/-- Witness for success_decay_cumulative at a concrete input: the state
with success counter 9, where the next success triggers the decay. -/
theorem success_decay_cumulative_witness :
    normTask.bypass_adaptive_delay = false ∧
    ((handle_success normTask c5SF).success_count = c5SF.success_count + 1 ∧
     ((c5SF.success_count + 1) % 10 = 0 →
       (handle_success normTask c5SF).current_delay =
         max (c5SF.current_delay * (19 / 20)) (c5SF.base_delay * (1 / 2))) ∧
     ((c5SF.success_count + 1) % 10 ≠ 0 →
       (handle_success normTask c5SF).current_delay = c5SF.current_delay) ∧
     (c5SF.base_delay * (1 / 2) ≤ c5SF.current_delay →
       c5SF.base_delay * (1 / 2) ≤ (handle_success normTask c5SF).current_delay)) :=
  ⟨rfl, success_decay_cumulative normTask c5SF rfl⟩

/-- Diagnostic task with the bypass-delay flag set, used in witnesses. -/
def bypassTask : ProfileTask :=
  { task_id := "diag", profile_id := "p1", bypass_adaptive_delay := true }

/-- Proxy state with an elevated delay and an active rate limit, used in
witnesses for the bypass frame condition. -/
def throttledState : ProxyClusterState :=
  { proxy_id := "proxy-1", active_profiles := [], current_delay := 4,
    rate_limit_until := some 100 }

/-- C6: processing the outcome of a task with the bypass-delay flag leaves
current_delay and rate_limit_until unchanged for both success and failure;
the only state-machine effect besides the counters is that a
connection-classified failure (error text containing "timeout" or
"connection") still clears the healthy flag; and the post-execution sleep
computed for such a task is exactly base_delay, independent of
current_delay and rate_limit_until. -/
theorem bypass_delay_frame (now : ℚ) (task : ProfileTask)
    (res : TaskExecutionResult) (s : ProxyClusterState)
    (hb : task.bypass_adaptive_delay = true) :
    (update_state now task res s).current_delay = s.current_delay ∧
    (update_state now task res s).rate_limit_until = s.rate_limit_until ∧
    (update_state now task res s).is_healthy =
      (if res.success = false ∧ is_connection_error res.error = true then false
       else s.is_healthy) ∧
    calculate_delay now s task = s.base_delay := by
  refine ⟨?_, ?_, ?_, by simp [calculate_delay, hb]⟩ <;>
    rcases res with ⟨rs, rr, re⟩ <;> cases rs <;>
      by_cases hc : is_connection_error re = true <;>
        simp [update_state, handle_success, handle_failure, should_decrease_delay,
          decrease_delay, hb, hc]

/-- Witness for bypass_delay_frame: a bypass task failing with a
connection-classified error on a throttled state. -/
theorem bypass_delay_frame_witness :
    bypassTask.bypass_adaptive_delay = true ∧
    ((update_state 0 bypassTask
        { success := false, error := some "connection refused" } throttledState).current_delay =
      throttledState.current_delay ∧
     (update_state 0 bypassTask
        { success := false, error := some "connection refused" } throttledState).rate_limit_until =
      throttledState.rate_limit_until ∧
     (update_state 0 bypassTask
        { success := false, error := some "connection refused" } throttledState).is_healthy =
      (if (false : Bool) = false ∧
          is_connection_error (some "connection refused") = true then false
       else throttledState.is_healthy) ∧
     calculate_delay 0 throttledState bypassTask = throttledState.base_delay) :=
  ⟨rfl, bypass_delay_frame 0 bypassTask
    { success := false, error := some "connection refused" } throttledState rfl⟩

/-- Stable insertion used to embed Python list.sort over ProfileTask: the
element is placed before the first member it compares strictly less than,
so equal elements keep their original relative order.  A comparison across
distinct priorities propagates the TypeError that ProfileTask.lt raises. -/
def insertByLt (x : ProfileTask) : List ProfileTask → Except PyError (List ProfileTask)
  | [] => .ok [x]
  | y :: ys => do
    let b ← ProfileTask.lt x y
    if b then .ok (x :: y :: ys)
    else do
      let rest ← insertByLt x ys
      .ok (y :: rest)

/-- Embedding of available_tasks.sort() in PriorityTaskQueue.get: a stable
sort by ProfileTask.lt, raising TypeError whenever two tasks of distinct
priorities have to be compared (as any Python comparison sort does). -/
def pyListSort (l : List ProfileTask) : Except PyError (List ProfileTask) :=
  l.foldlM (fun acc x => insertByLt x acc) []

/-- PriorityTaskQueue from app/execution/queue_manager.py: a heap of tasks
plus the task-id registry used for cancellation.  The heap is embedded as
the list of stored tasks; heapq's internal arrangement is abstracted away
because get drains the whole heap before choosing. -/
structure PriorityTaskQueue where
  heap : List ProfileTask := []
  registry : List String := []
deriving Repr

/-- PriorityTaskQueue.put: register the task id and add the task to the
heap. -/
def PriorityTaskQueue.put (q : PriorityTaskQueue) (t : ProfileTask) : PriorityTaskQueue :=
  { heap := q.heap ++ [t],
    registry := if t.task_id ∈ q.registry then q.registry else q.registry ++ [t.task_id] }

/-- PriorityTaskQueue.get (lines 29-78): with an empty heap the bounded
wait times out and None is returned; otherwise the heap is drained,
cancelled tasks (ids no longer registered) are dropped, the remaining
tasks are partitioned into executable (can_execute against the empty
completed set) and not-yet-executable, the non-executable ones are pushed
back, the executable ones are sorted and the least is returned with the
rest pushed back.  The drain itself is embedded as a partition of the
stored list; the sort faithfully raises TypeError on mixed priorities. -/
def PriorityTaskQueue.get (q : PriorityTaskQueue) (now : ℚ) :
    Except PyError (Option ProfileTask × PriorityTaskQueue) :=
  if q.heap.isEmpty then .ok (none, q)
  else
    let alive := q.heap.filter (fun t => decide (t.task_id ∈ q.registry))
    let available := alive.filter (fun t => t.can_execute [] now)
    let unavailable := alive.filter (fun t => !t.can_execute [] now)
    match pyListSort available with
    | .error e => .error e
    | .ok [] => .ok (none, { q with heap := unavailable })
    | .ok (sel :: rest) => .ok (some sel, { q with heap := unavailable ++ rest })

/-- Outcome of one iteration of ProfileExecutor._execute_profile. -/
inductive ExecutorOutcome where
  | dispatched (t : ProfileTask)
  | requeued (t : ProfileTask)
  | idle
  | raised (e : PyError)
deriving Repr

/-- One iteration of the ProfileExecutor._execute_profile loop
(app/execution/profile_executor.py lines 115-132): pop a task from the
queue with a bounded wait; if its dependencies are not all in the
profile's completed_tasks set, push it back and try again; otherwise
dispatch it to its handler. -/
def profileExecutorStep (q : PriorityTaskQueue) (completed : List String) (now : ℚ) :
    ExecutorOutcome × PriorityTaskQueue :=
  match q.get now with
  | .error e => (.raised e, q)
  | .ok (none, q1) => (.idle, q1)
  | .ok (some t, q1) =>
    if t.can_execute completed now then (.dispatched t, q1)
    else (.requeued t, q1.put t)

/-- Computation rule: binding a successful Except value applies the
continuation. -/
theorem exbind_ok {α β : Type} (a : α) (k : α → Except PyError β) :
    (Except.ok a : Except PyError α) >>= k = k a := rfl

/-- Computation rule: binding a raised Except value propagates the error. -/
theorem exbind_err {α β : Type} (e : PyError) (k : α → Except PyError β) :
    (Except.error e : Except PyError α) >>= k = Except.error e := rfl

/-- Computation rule: pure in the Except monad is Except.ok. -/
theorem expure {α : Type} (a : α) : (pure a : Except PyError α) = Except.ok a := rfl

/-- Elements of a successful insertByLt are the inserted element or
elements of the original list. -/
theorem insertByLt_mem (l : List ProfileTask) (x : ProfileTask)
    (l' : List ProfileTask) (h : insertByLt x l = .ok l') :
    ∀ y ∈ l', y = x ∨ y ∈ l := by
  induction l generalizing l' with
  | nil =>
    simp only [insertByLt, Except.ok.injEq] at h
    subst h
    simp
  | cons z zs ih =>
    simp only [insertByLt] at h
    cases hlt : ProfileTask.lt x z with
    | error e => rw [hlt] at h; simp [exbind_err] at h
    | ok b =>
      rw [hlt] at h
      simp only [exbind_ok] at h
      cases b with
      | true =>
        rw [if_pos rfl] at h
        rcases h with ⟨⟩
        intro y hy
        rw [List.mem_cons] at hy
        rcases hy with hy | hy
        · exact Or.inl hy
        · exact Or.inr hy
      | false =>
        rw [if_neg (by simp)] at h
        cases hrec : insertByLt x zs with
        | error e => rw [hrec] at h; simp [exbind_err] at h
        | ok rest =>
          rw [hrec] at h
          simp only [exbind_ok, Except.ok.injEq] at h
          subst h
          intro y hy
          rw [List.mem_cons] at hy
          rcases hy with hy | hy
          · exact Or.inr (by simp [hy])
          · rcases ih rest hrec y hy with h1 | h1
            · exact Or.inl h1
            · exact Or.inr (List.mem_cons_of_mem z h1)

/-- Elements of a successfully sorted list are elements of the input. -/
theorem pyListSort_mem (l l' : List ProfileTask) (h : pyListSort l = .ok l') :
    ∀ y ∈ l', y ∈ l := by
  suffices haux : ∀ (l : List ProfileTask) (acc out : List ProfileTask),
      l.foldlM (fun acc x => insertByLt x acc) acc = .ok out →
      ∀ y ∈ out, y ∈ acc ∨ y ∈ l by
    intro y hy
    rcases haux l [] l' h y hy with h1 | h1
    · simp at h1
    · exact h1
  intro l
  induction l with
  | nil =>
    intro acc out h y hy
    simp only [List.foldlM_nil, expure, Except.ok.injEq] at h
    subst h
    exact Or.inl hy
  | cons x xs ih =>
    intro acc out h y hy
    simp only [List.foldlM_cons] at h
    cases hins : insertByLt x acc with
    | error e => rw [hins] at h; simp [exbind_err] at h
    | ok acc' =>
      rw [hins] at h
      simp only [exbind_ok] at h
      rcases ih acc' out h y hy with h1 | h1
      · rcases insertByLt_mem acc x acc' hins y h1 with h2 | h2
        · exact Or.inr (by simp [h2])
        · exact Or.inl h2
      · exact Or.inr (by simp [h1])

/-- A task that passes can_execute has all its dependencies inside the
supplied completed set. -/
theorem can_execute_deps (t : ProfileTask) (completed : List String) (now : ℚ)
    (h : t.can_execute completed now = true) :
    ∀ d ∈ t.dependencies, d ∈ completed := by
  intro d hd
  unfold ProfileTask.can_execute at h
  rw [Bool.and_eq_true] at h
  have h1 := h.1
  rw [List.all_eq_true] at h1
  simpa using h1 d hd

/-- C3: a task with unmet dependencies is never dispatched before those
dependencies complete.  For PriorityTaskQueue.get the completed set
supplied is the empty set, so a returned task has every dependency in the
empty set; for the profile executor loop a dispatched task has every
dependency in that profile's completed_tasks. -/
theorem dependency_gated_dispatch (q : PriorityTaskQueue) (completed : List String)
    (now : ℚ) :
    (∀ t q1, q.get now = .ok (some t, q1) →
      t.can_execute [] now = true ∧ ∀ d ∈ t.dependencies, d ∈ ([] : List String)) ∧
    (∀ t q1, profileExecutorStep q completed now = (.dispatched t, q1) →
      t.can_execute completed now = true ∧ ∀ d ∈ t.dependencies, d ∈ completed) := by
  have hget : ∀ t q1, q.get now = .ok (some t, q1) → t.can_execute [] now = true := by
    intro t q1 h
    unfold PriorityTaskQueue.get at h
    by_cases he : q.heap.isEmpty
    · simp [he] at h
    · simp only [he, if_false, Bool.false_eq_true] at h
      cases hs : pyListSort ((q.heap.filter (fun t => decide (t.task_id ∈ q.registry))).filter
          (fun t => t.can_execute [] now)) with
      | error e => rw [hs] at h; simp at h
      | ok sorted =>
        rw [hs] at h
        cases sorted with
        | nil => simp at h
        | cons sel rest =>
          simp only [Except.ok.injEq, Prod.mk.injEq, Option.some.injEq] at h
          have hmem : sel ∈ (q.heap.filter (fun t => decide (t.task_id ∈ q.registry))).filter
              (fun t => t.can_execute [] now) :=
            pyListSort_mem _ _ hs sel (by simp)
          rw [List.mem_filter] at hmem
          rw [← h.1]
          exact hmem.2
  constructor
  · intro t q1 h
    have hc := hget t q1 h
    exact ⟨hc, can_execute_deps t [] now hc⟩
  · intro t q1 h
    unfold profileExecutorStep at h
    cases hg : q.get now with
    | error e => rw [hg] at h; simp at h
    | ok r =>
      rw [hg] at h
      rcases r with ⟨ot, q2⟩
      cases ot with
      | none => simp at h
      | some t2 =>
        by_cases hc : t2.can_execute completed now = true
        · simp only [hc, if_pos, ExecutorOutcome.dispatched.injEq, Prod.mk.injEq] at h
          rcases h with ⟨h1, h2⟩
          subst h1
          exact ⟨hc, can_execute_deps t2 completed now hc⟩
        · simp only [Bool.not_eq_true] at hc
          simp [hc] at h

/-- Dependency-free task used to witness queue retrieval. -/
def depFreeTask : ProfileTask := { task_id := "w1", profile_id := "p1" }

/-- Queue holding exactly depFreeTask. -/
def qWitness : PriorityTaskQueue := PriorityTaskQueue.put {} depFreeTask

/-- Witness for dependency_gated_dispatch: the singleton queue returns its
dependency-free task, and the executable conclusion holds for it. -/
theorem dependency_gated_dispatch_witness :
    qWitness.get 0 = .ok (some depFreeTask, { heap := [], registry := ["w1"] }) ∧
    (depFreeTask.can_execute [] 0 = true ∧
      ∀ d ∈ depFreeTask.dependencies, d ∈ ([] : List String)) :=
  ⟨rfl, (dependency_gated_dispatch qWitness [] 0).1 depFreeTask
    { heap := [], registry := ["w1"] } rfl⟩

/-- Lookup in an association list embedding a Python dict. -/
def alookup {κ α : Type} [DecidableEq κ] : List (κ × α) → κ → Option α
  | [], _ => none
  | (k, v) :: rest, key => if k = key then some v else alookup rest key

/-- Update or insert in an association list embedding a Python dict
assignment (existing keys keep their position, new keys are appended, as
Python dicts do). -/
def aset {κ α : Type} [DecidableEq κ] : List (κ × α) → κ → α → List (κ × α)
  | [], key, v => [(key, v)]
  | (k, w) :: rest, key, v =>
    if k = key then (k, v) :: rest else (k, w) :: aset rest key v

/-- QueueManager from app/execution/queue_manager.py, restricted to the
task-routing state: the single global urgent queue shared by all profiles
and the per-profile priority queues.  The command/result/status plumbing
and the statistics counters are orthogonal to the routing claims. -/
structure QueueManager where
  urgent : PriorityTaskQueue := {}
  profile_queues : List (String × PriorityTaskQueue) := []

/-- QueueManager.add_task_to_profile (lines 172-191): a CRITICAL task goes
to the global urgent queue; any other task goes to the submitting
profile's own queue, which is created on demand. -/
def QueueManager.add_task_to_profile (m : QueueManager) (profile_id : String)
    (task : ProfileTask) : QueueManager :=
  if task.priority = .critical then { m with urgent := m.urgent.put task }
  else
    match alookup m.profile_queues profile_id with
    | some q =>
      { m with profile_queues := aset m.profile_queues profile_id (q.put task) }
    | none =>
      let q0 := PriorityTaskQueue.put ⟨[], []⟩ task
      { m with profile_queues := aset m.profile_queues profile_id q0 }

/-- QueueManager.get_next_task_for_profile (lines 193-206): poll the
global urgent queue first (with a 0.1-second bounded wait, embedded as a
single non-blocking get); only when it yields nothing is the profile's
own queue polled. -/
def QueueManager.get_next_task_for_profile (m : QueueManager) (profile_id : String)
    (now : ℚ) : Except PyError (Option ProfileTask × QueueManager) :=
  match m.urgent.get now with
  | .error e => .error e
  | .ok (some t, uq) => .ok (some t, { m with urgent := uq })
  | .ok (none, uq) =>
    match alookup m.profile_queues profile_id with
    | some q =>
      match q.get now with
      | .error e => .error e
      | .ok (r, q1) =>
        .ok (r, { m with urgent := uq,
                         profile_queues := aset m.profile_queues profile_id q1 })
    | none => .ok (none, { m with urgent := uq })

/-- C10: every task submitted with CRITICAL priority is placed in the
single global urgent queue shared by all profiles instead of the
submitting profile's own queue, and get_next_task_for_profile always polls
the urgent queue first, so a pop made on behalf of one profile can return
a CRITICAL task belonging to a different profile — shown concretely for a
CRITICAL task of profile p1 popped on behalf of profile p2. -/
theorem critical_urgent_queue_routing (m : QueueManager) (pid : String)
    (task : ProfileTask) (now : ℚ) (h : task.priority = .critical) :
    (m.add_task_to_profile pid task).urgent = m.urgent.put task ∧
    (m.add_task_to_profile pid task).profile_queues = m.profile_queues ∧
    (∀ t uq, m.urgent.get now = .ok (some t, uq) →
      m.get_next_task_for_profile pid now = .ok (some t, { m with urgent := uq })) ∧
    (∀ task2 : ProfileTask, task2.priority ≠ .critical →
      (m.add_task_to_profile pid task2).urgent = m.urgent) ∧
    (({} : QueueManager).add_task_to_profile "p1" critTask).get_next_task_for_profile
        "p2" 0 =
      .ok (some critTask,
        { urgent := { heap := [], registry := ["t1"] }, profile_queues := [] }) ∧
    critTask.profile_id = "p1" ∧ critTask.priority = .critical := by
  refine ⟨?_, ?_, ?_, ?_, rfl, rfl, rfl⟩
  · simp [QueueManager.add_task_to_profile, h]
  · simp [QueueManager.add_task_to_profile, h]
  · intro t uq hget
    unfold QueueManager.get_next_task_for_profile
    rw [hget]
  · intro task2 h2
    unfold QueueManager.add_task_to_profile
    rw [if_neg h2]
    cases alookup m.profile_queues pid <;> simp

/-- Witness for critical_urgent_queue_routing at a concrete input: the
empty manager and the CRITICAL task of profile p1. -/
theorem critical_urgent_queue_routing_witness :
    critTask.priority = .critical ∧
    ((({} : QueueManager).add_task_to_profile "p1" critTask).urgent =
        ({} : QueueManager).urgent.put critTask ∧
     (({} : QueueManager).add_task_to_profile "p1" critTask).profile_queues =
        ({} : QueueManager).profile_queues ∧
     (∀ t uq, ({} : QueueManager).urgent.get 0 = .ok (some t, uq) →
       ({} : QueueManager).get_next_task_for_profile "p1" 0 =
         .ok (some t, { ({} : QueueManager) with urgent := uq })) ∧
     (∀ task2 : ProfileTask, task2.priority ≠ .critical →
       (({} : QueueManager).add_task_to_profile "p1" task2).urgent =
         ({} : QueueManager).urgent) ∧
     (({} : QueueManager).add_task_to_profile "p1" critTask).get_next_task_for_profile
         "p2" 0 =
       .ok (some critTask,
         { urgent := { heap := [], registry := ["t1"] }, profile_queues := [] }) ∧
     critTask.profile_id = "p1" ∧ critTask.priority = .critical) :=
  ⟨rfl, critical_urgent_queue_routing {} "p1" critTask 0 rfl⟩

/-- Guarded set_result as performed at every call site: only a future that
exists and is not yet done is resolved; an already-resolved or absent
future is left untouched. -/
def resolveOk (r : Option String) (f : Option FutureState) : Option FutureState :=
  match f with
  | none => none
  | some fs => some (if fs.done then fs else .resolvedOk r)

/-- Guarded set_exception as performed at every call site. -/
def resolveErr (e : String) (f : Option FutureState) : Option FutureState :=
  match f with
  | none => none
  | some fs => some (if fs.done then fs else .resolvedErr e)

/-- Python x or d for an optional string: None and the empty string fall
back to the default. -/
def pyOrStr (o : Option String) (d : String) : String :=
  match o with
  | none => d
  | some s => if s = "" then d else s

/-- The operations that touch a task's completion handle, one constructor
per call site in the code: ClusterManager._ensure_future,
ProfileTask.mark_started / mark_completed / mark_failed,
Cluster._handle_task_result, Cluster.clear_queue draining, and the worker
loop's internal-error handler. -/
inductive TaskOp where
  | ensure
  | markStarted (now : ℚ)
  | markCompleted (now : ℚ) (res : Option String)
  | markFailed (now : ℚ) (err : String)
  | handleResult (r : TaskExecutionResult)
  | clearStopped
  | workerError (e : String)

/-- Effect of each operation on the task, with the done-guard written
exactly as each call site checks it. -/
def applyOp (op : TaskOp) (t : ProfileTask) : ProfileTask :=
  match op with
  | .ensure =>
    if t.result_future = none then { t with result_future := some .pending } else t
  | .markStarted now =>
    { t with status := .processing, started_at := some now, attempts := t.attempts + 1 }
  | .markCompleted now res =>
    { t with status := .completed, result := res, completed_at := some now,
             result_future := resolveOk res t.result_future }
  | .markFailed now err =>
    { t with status := .failed, error := some err, completed_at := some now,
             result_future := resolveErr err t.result_future }
  | .handleResult r =>
    { t with result_future :=
        if r.success then resolveOk r.result t.result_future
        else resolveErr (pyOrStr r.error "Task execution failed") t.result_future }
  | .clearStopped =>
    { t with result_future := resolveErr "Cluster stopped" t.result_future }
  | .workerError e =>
    { t with result_future := resolveErr e t.result_future }

/-- A task whose completion handle exists and is resolved. -/
def taskDone (t : ProfileTask) : Bool :=
  match t.result_future with
  | none => false
  | some fs => fs.done

/-- Number of steps along an operation sequence at which the task's handle
transitions from unresolved to resolved. -/
def resolutionEvents : List TaskOp → ProfileTask → Nat
  | [], _ => 0
  | op :: ops, t =>
    (if !taskDone t && taskDone (applyOp op t) then 1 else 0) +
      resolutionEvents ops (applyOp op t)

/-- Number of steps along an operation sequence at which the task's handle
transitions from absent to present. -/
def creationEvents : List TaskOp → ProfileTask → Nat
  | [], _ => 0
  | op :: ops, t =>
    (if t.result_future = none ∧ (applyOp op t).result_future ≠ none then 1 else 0) +
      creationEvents ops (applyOp op t)

/-- A resolved future is untouched by the guarded set_result. -/
theorem resolveOk_done (r : Option String) (f : Option FutureState)
    (h : (match f with | none => false | some fs => fs.done) = true) :
    resolveOk r f = f := by
  cases f with
  | none => rfl
  | some fs =>
    have h2 : fs.done = true := h
    simp [resolveOk, h2]

/-- A resolved future is untouched by the guarded set_exception. -/
theorem resolveErr_done (e : String) (f : Option FutureState)
    (h : (match f with | none => false | some fs => fs.done) = true) :
    resolveErr e f = f := by
  cases f with
  | none => rfl
  | some fs =>
    have h2 : fs.done = true := h
    simp [resolveErr, h2]

/-- Frame property: once the task's handle is resolved, no operation
changes it again. -/
theorem applyOp_done_frame (op : TaskOp) (t : ProfileTask) (h : taskDone t = true) :
    (applyOp op t).result_future = t.result_future := by
  have hne : t.result_future ≠ none := by
    intro he
    rw [taskDone, he] at h
    exact Bool.false_ne_true h
  have hd : (match t.result_future with | none => false | some fs => fs.done) = true := h
  cases op with
  | ensure => simp [applyOp, hne]
  | markStarted now => rfl
  | markCompleted now res => simp [applyOp, resolveOk_done _ _ hd]
  | markFailed now err => simp [applyOp, resolveErr_done _ _ hd]
  | handleResult r =>
    by_cases hs : r.success = true <;>
      simp [applyOp, hs, resolveOk_done _ _ hd, resolveErr_done _ _ hd]
  | clearStopped => simp [applyOp, resolveErr_done _ _ hd]
  | workerError e => simp [applyOp, resolveErr_done _ _ hd]

/-- Once resolved, no further resolution events occur. -/
theorem resolutionEvents_done (ops : List TaskOp) (t : ProfileTask)
    (h : taskDone t = true) : resolutionEvents ops t = 0 := by
  induction ops generalizing t with
  | nil => rfl
  | cons op ops ih =>
    have hframe := applyOp_done_frame op t h
    have hdone : taskDone (applyOp op t) = true := by
      rw [taskDone, hframe]
      exact h
    simp only [resolutionEvents, h, Bool.not_true, Bool.false_and, if_false,
      Bool.false_eq_true, ih _ hdone]

/-- An existing handle never disappears under the operations. -/
theorem applyOp_keeps_future (op : TaskOp) (t : ProfileTask)
    (h : t.result_future ≠ none) : (applyOp op t).result_future ≠ none := by
  cases hf : t.result_future with
  | none => exact absurd hf h
  | some fs =>
    cases op with
    | ensure => simp [applyOp, hf]
    | markStarted now => simp [applyOp, hf]
    | markCompleted now res => simp [applyOp, hf, resolveOk]
    | markFailed now err => simp [applyOp, hf, resolveErr]
    | handleResult r =>
      by_cases hs : r.success = true <;> simp [applyOp, hs, hf, resolveOk, resolveErr]
    | clearStopped => simp [applyOp, hf, resolveErr]
    | workerError e => simp [applyOp, hf, resolveErr]

/-- Once the handle exists, no further creation events occur. -/
theorem creationEvents_exists (ops : List TaskOp) (t : ProfileTask)
    (h : t.result_future ≠ none) : creationEvents ops t = 0 := by
  induction ops generalizing t with
  | nil => rfl
  | cons op ops ih =>
    simp only [creationEvents, h, false_and, if_false,
      ih _ (applyOp_keeps_future op t h)]

/-- C7: along any sequence of the operations that touch a task's
completion handle, the handle is resolved at most once and created at most
once, and _ensure_future creates a fresh handle only when the task does
not already carry one. -/
theorem future_resolved_at_most_once (ops : List TaskOp) (t : ProfileTask) :
    resolutionEvents ops t ≤ 1 ∧
    creationEvents ops t ≤ 1 ∧
    (applyOp .ensure t).result_future =
      (if t.result_future = none then some FutureState.pending else t.result_future) := by
  refine ⟨?_, ?_, ?_⟩
  · induction ops generalizing t with
    | nil => exact Nat.zero_le 1
    | cons op ops ih =>
      by_cases hd : taskDone t = true
      · rw [resolutionEvents_done (op :: ops) t hd]
        exact Nat.zero_le 1
      · rw [Bool.not_eq_true] at hd
        by_cases hd2 : taskDone (applyOp op t) = true
        · have h0 := resolutionEvents_done ops (applyOp op t) hd2
          simp [resolutionEvents, hd, hd2, h0]
        · rw [Bool.not_eq_true] at hd2
          have h1 := ih (applyOp op t)
          simp only [resolutionEvents, hd2, Bool.and_false, if_false, Nat.zero_add,
            Bool.false_eq_true]
          exact h1
  · induction ops generalizing t with
    | nil => exact Nat.zero_le 1
    | cons op ops ih =>
      by_cases hn : t.result_future = none
      · by_cases hn2 : (applyOp op t).result_future = none
        · have h1 := ih (applyOp op t)
          simp only [creationEvents, hn2, ne_eq, not_true_eq_false, and_false, if_false,
            Nat.zero_add]
          exact h1
        · have h0 := creationEvents_exists ops (applyOp op t) hn2
          simp [creationEvents, hn, hn2, h0]
      · rw [creationEvents_exists (op :: ops) t hn]
        exact Nat.zero_le 1
  · by_cases hn : t.result_future = none <;> simp [applyOp, hn]

/-- An entry of the Cluster's asyncio.PriorityQueue: either a real task or
the module-level STOP_TASK sentinel.  StopTaskSentinel is imported by both
cluster executors from app.models.execution_models; its (trivial, empty)
class body is not under src/, so it is embedded as a distinguished
constructor. -/
inductive QItem where
  | stopSentinel
  | task (t : ProfileTask)
deriving DecidableEq, Repr

/-- Phase of one live worker-loop asyncio task: about to await the queue,
inside the handler call, or sleeping the post-execution delay. -/
inductive WorkerPhase where
  | popping
  | inHandler
  | applyingDelay
deriving DecidableEq, Repr

/-- One live (not yet finished) worker task, identified by a creation id. -/
structure WorkerTask where
  wid : Nat
  phase : WorkerPhase
deriving DecidableEq, Repr

/-- Concurrency-relevant state of one Cluster: the set of live worker
asyncio tasks, the _worker_task handle (the id of the task it references,
None initially and after _stop_worker_task), the next fresh task id, and
the queue contents. -/
structure ClusterSys where
  workers : List WorkerTask
  worker_handle : Option Nat
  next_id : Nat
  queue : List QItem
deriving Repr

/-- State of a freshly constructed Cluster: no worker yet, empty queue. -/
def clusterInit : ClusterSys :=
  { workers := [], worker_handle := none, next_id := 0, queue := [] }

/-- Interleaving semantics of the Cluster concurrency structure
(app/execution/managers/cluster_executor.py).  start() spawns a worker
only when the handle is absent or its task is done (start_spawn versus the
start_noop guard); any caller may enqueue; a live worker in the popping
phase consumes the queue head, entering the handler for a task and
exiting the loop for the stop sentinel; handler exit and delay completion
advance the phase; loop-internal errors return the worker to popping
without ending it; stop() may force-cancel the handle's worker and clears
the handle only once that worker is gone. -/
inductive ClusterStep : ClusterSys → ClusterSys → Prop
  | start_noop (s : ClusterSys) (i : Nat)
      (hh : s.worker_handle = some i)
      (hlive : i ∈ s.workers.map WorkerTask.wid) :
      ClusterStep s s
  | start_spawn (s : ClusterSys)
      (hdead : ∀ i, s.worker_handle = some i → i ∉ s.workers.map WorkerTask.wid) :
      ClusterStep s
        { workers := ⟨s.next_id, .popping⟩ :: s.workers,
          worker_handle := some s.next_id,
          next_id := s.next_id + 1,
          queue := s.queue }
  | enqueue (s : ClusterSys) (it : QItem) :
      ClusterStep s { s with queue := s.queue ++ [it] }
  | pop_task (pre post : List WorkerTask) (i : Nat) (h : Option Nat) (n : Nat)
      (t : ProfileTask) (rest : List QItem) :
      ClusterStep
        ⟨pre ++ ⟨i, .popping⟩ :: post, h, n, .task t :: rest⟩
        ⟨pre ++ ⟨i, .inHandler⟩ :: post, h, n, rest⟩
  | pop_stop (pre post : List WorkerTask) (i : Nat) (h : Option Nat) (n : Nat)
      (rest : List QItem) :
      ClusterStep
        ⟨pre ++ ⟨i, .popping⟩ :: post, h, n, .stopSentinel :: rest⟩
        ⟨pre ++ post, h, n, rest⟩
  | finish_handler (pre post : List WorkerTask) (i : Nat) (h : Option Nat) (n : Nat)
      (q : List QItem) :
      ClusterStep
        ⟨pre ++ ⟨i, .inHandler⟩ :: post, h, n, q⟩
        ⟨pre ++ ⟨i, .applyingDelay⟩ :: post, h, n, q⟩
  | finish_delay (pre post : List WorkerTask) (i : Nat) (h : Option Nat) (n : Nat)
      (q : List QItem) :
      ClusterStep
        ⟨pre ++ ⟨i, .applyingDelay⟩ :: post, h, n, q⟩
        ⟨pre ++ ⟨i, .popping⟩ :: post, h, n, q⟩
  | worker_error (pre post : List WorkerTask) (i : Nat) (ph : WorkerPhase)
      (h : Option Nat) (n : Nat) (q : List QItem) :
      ClusterStep
        ⟨pre ++ ⟨i, ph⟩ :: post, h, n, q⟩
        ⟨pre ++ ⟨i, .popping⟩ :: post, h, n, q⟩
  | cancel_worker (pre post : List WorkerTask) (i : Nat) (ph : WorkerPhase)
      (n : Nat) (q : List QItem) :
      ClusterStep
        ⟨pre ++ ⟨i, ph⟩ :: post, some i, n, q⟩
        ⟨pre ++ post, some i, n, q⟩
  | clear_handle (s : ClusterSys) (i : Nat)
      (hh : s.worker_handle = some i)
      (hdead : i ∉ s.workers.map WorkerTask.wid) :
      ClusterStep s { s with worker_handle := none }

/-- States reachable from a freshly constructed Cluster. -/
inductive ClusterReachable : ClusterSys → Prop
  | init : ClusterReachable clusterInit
  | step {s s' : ClusterSys} : ClusterReachable s → ClusterStep s s' → ClusterReachable s'

/-- Number of workers currently inside the handler call. -/
def inHandlerCount (s : ClusterSys) : Nat :=
  (s.workers.filter (fun w => w.phase = .inHandler)).length

/-- Inductive invariant: every live worker is the one the handle refers
to; consequently there is at most one live worker. -/
def ClusterInv (s : ClusterSys) : Prop :=
  (∀ w ∈ s.workers, s.worker_handle = some w.wid) ∧ s.workers.length ≤ 1

/-- Replacing one worker's phase preserves the invariant (ids, handle and
worker count are untouched). -/
theorem clusterInv_replace (pre post : List WorkerTask) (i : Nat)
    (ph ph' : WorkerPhase) (h : Option Nat) (n n' : Nat) (q q' : List QItem)
    (hinv : ClusterInv ⟨pre ++ ⟨i, ph⟩ :: post, h, n, q⟩) :
    ClusterInv ⟨pre ++ ⟨i, ph'⟩ :: post, h, n', q'⟩ := by
  constructor
  · intro w hw
    rcases List.mem_append.mp hw with hw | hw
    · exact hinv.1 w (List.mem_append.mpr (Or.inl hw))
    · rcases List.mem_cons.mp hw with hw | hw
    
      · rw [hw]
        exact hinv.1 ⟨i, ph⟩ (by simp)
      · exact hinv.1 w (by simp [hw])
  · have h2 := hinv.2
    simpa using h2

/-- Removing one worker preserves the invariant. -/
theorem clusterInv_remove (pre post : List WorkerTask) (x : WorkerTask)
    (h : Option Nat) (n n' : Nat) (q q' : List QItem)
    (hinv : ClusterInv ⟨pre ++ x :: post, h, n, q⟩) :
    ClusterInv ⟨pre ++ post, h, n', q'⟩ := by
  constructor
  · intro w hw
    rcases List.mem_append.mp hw with hw | hw
    · exact hinv.1 w (List.mem_append.mpr (Or.inl hw))
    · exact hinv.1 w (by simp [hw])
  · have h2 := hinv.2
    simp only [List.length_append, List.length_cons] at h2 ⊢
    omega

/-- The invariant is preserved by every step of the Cluster semantics. -/
theorem clusterInv_preserved {s s' : ClusterSys} (hinv : ClusterInv s)
    (hs : ClusterStep s s') : ClusterInv s' := by
  cases hs with
  | start_noop s i hh hlive => exact hinv
  | start_spawn s hdead =>
    have hempty : s.workers = [] := by
      cases hw : s.workers with
      | nil => rfl
      | cons w ws =>
        exfalso
        have h1 := hinv.1 w (by rw [hw]; exact List.mem_cons_self w ws)
        apply hdead w.wid h1
        rw [hw]
        exact List.mem_map_of_mem WorkerTask.wid (List.mem_cons_self w ws)
    refine ⟨?_, ?_⟩
    · intro w hw
      simp only [hempty, List.mem_cons, List.not_mem_nil, or_false] at hw
      simp [hw]
    · simp [hempty]
  | enqueue s it => exact ⟨fun w hw => hinv.1 w hw, hinv.2⟩
  | pop_task pre post i h n t rest => exact clusterInv_replace _ _ _ _ _ _ _ _ _ _ hinv
  | pop_stop pre post i h n rest => exact clusterInv_remove _ _ _ _ _ _ _ _ hinv
  | finish_handler pre post i h n q => exact clusterInv_replace _ _ _ _ _ _ _ _ _ _ hinv
  | finish_delay pre post i h n q => exact clusterInv_replace _ _ _ _ _ _ _ _ _ _ hinv
  | worker_error pre post i ph h n q => exact clusterInv_replace _ _ _ _ _ _ _ _ _ _ hinv
  | cancel_worker pre post i ph n q => exact clusterInv_remove _ _ _ _ _ _ _ _ hinv
  | clear_handle s i hh hdead =>
    have hempty : s.workers = [] := by
      cases hw : s.workers with
      | nil => rfl
      | cons w ws =>
        exfalso
        have h1 := hinv.1 w (by rw [hw]; exact List.mem_cons_self w ws)
        rw [hh] at h1
        have h3 : i = w.wid := by injection h1
        apply hdead
        rw [h3, hw]
        exact List.mem_map_of_mem WorkerTask.wid (List.mem_cons_self w ws)
    refine ⟨?_, ?_⟩
    · intro w hw
      rw [hempty] at hw
      simp at hw
    · simp [hempty]

/-- C1: in every state reachable from a fresh Cluster, at most one worker
is inside handler execution — start() spawns a worker only when none is
live, and each worker's loop pops, executes and delays one task at a
time, so two handler invocations for the same resource never overlap. -/
theorem cluster_worker_mutual_exclusion (s : ClusterSys) (h : ClusterReachable s) :
    inHandlerCount s ≤ 1 := by
  have hinv : ClusterInv s := by
    induction h with
    | init => exact ⟨by simp [clusterInit], by simp [clusterInit]⟩
    | step h1 h2 ih => exact clusterInv_preserved ih h2
  calc inHandlerCount s ≤ s.workers.length := List.length_filter_le _ _
    _ ≤ 1 := hinv.2

/-- Reachable state with the single worker inside the handler, obtained by
start, enqueue and pop. -/
def sysExample : ClusterSys :=
  { workers := [⟨0, .inHandler⟩], worker_handle := some 0, next_id := 1, queue := [] }

/-- Witness for cluster_worker_mutual_exclusion at a concrete reachable
state: after start, one enqueue and one pop, exactly one worker is inside
the handler, and the theorem bounds the count by one. -/
theorem cluster_worker_mutual_exclusion_witness :
    inHandlerCount sysExample = 1 ∧ inHandlerCount sysExample ≤ 1 :=
  ⟨rfl,
    cluster_worker_mutual_exclusion sysExample
      (ClusterReachable.step
        (ClusterReachable.step
          (ClusterReachable.step ClusterReachable.init
            (ClusterStep.start_spawn clusterInit (fun i hi => by cases hi)))
          (ClusterStep.enqueue _ (.task normTask)))
        (ClusterStep.pop_task [] [] 0 (some 0) 1 normTask []))⟩

/-- Minimal manager-side view of one Cluster: the key it is stored under
(Optional, because Python hands _get_or_create_cluster the value None when
no proxy could be selected), its registered profiles, and its queue
contents with their completion handles. -/
structure ManagedCluster where
  proxy_key : Option String
  active_profiles : List String := []
  queue : List QItem := []
deriving Repr

/-- ClusterManager state (app/execution/managers/cluster_executor.py):
the proxy-to-Cluster dict and the profile-to-proxy dict.  Keys and stored
proxy ids are Option String so that the Python None flowing out of
select_best_proxy_id is representable. -/
structure ClusterManager where
  clusters : List (Option String × ManagedCluster) := []
  profile_to_proxy : List (String × Option String) := []

/-- Python truthiness of an optional string: None and the empty string are
falsy. -/
def pyTruthyStr : Option String → Bool
  | none => false
  | some x => !(x == "")

/-- Python self._profile_to_proxy.get(profile_id): absent keys and a
stored None both come back as None. -/
def dictGetP (m : ClusterManager) (profile_id : String) : Option String :=
  match alookup m.profile_to_proxy profile_id with
  | some v => v
  | none => none

/-- Cluster.add_profile: register the profile if it is not yet present. -/
def ManagedCluster.add_profile (c : ManagedCluster) (profile_id : String) :
    ManagedCluster :=
  if profile_id ∈ c.active_profiles then c
  else { c with active_profiles := c.active_profiles ++ [profile_id] }

/-- ClusterManager._get_or_create_cluster: reuse the stored Cluster or
create (and start) a fresh one under the given key. -/
def get_or_create_cluster (m : ClusterManager) (key : Option String) :
    ManagedCluster × ClusterManager :=
  match alookup m.clusters key with
  | some c => (c, m)
  | none =>
    let c : ManagedCluster := { proxy_key := key }
    (c, { m with clusters := m.clusters ++ [(key, c)] })

/-- ClusterManager.select_best_proxy_id's loop: best candidate so far and
its profile count (None encodes the initial float("inf")); a candidate
with no existing cluster is returned immediately. -/
def selectBestAux (m : ClusterManager) :
    List String → Option String → Option Nat → Option String
  | [], best, _ => best
  | pid :: rest, best, minp =>
    match alookup m.clusters (some pid) with
    | none => some pid
    | some c =>
      if (match minp with
          | none => true
          | some mp => decide (c.active_profiles.length < mp)) then
        selectBestAux m rest (some pid) (some c.active_profiles.length)
      else
        selectBestAux m rest best minp

/-- ClusterManager.select_best_proxy_id (lines 552-568). -/
def select_best_proxy_id (m : ClusterManager) (proxy_ids : List String) :
    Option String :=
  selectBestAux m proxy_ids none none

/-- ClusterManager._ensure_profile_assigned (lines 497-511): return the
existing truthy assignment unchanged; otherwise use the given proxy id if
truthy, else pick one with select_best_proxy_id, lazily create that
Cluster, register the profile in it and record the mapping. -/
def ensure_profile_assigned (m : ClusterManager) (profile_id : String)
    (proxy_id : Option String) (all_proxy_ids : List String) :
    Option String × ClusterManager :=
  let current := dictGetP m profile_id
  if pyTruthyStr current then (current, m)
  else
    let key := if pyTruthyStr proxy_id then proxy_id
               else select_best_proxy_id m all_proxy_ids
    let pair := get_or_create_cluster m key
    let c1 := pair.1.add_profile profile_id
    let m2 := { pair.2 with clusters := aset pair.2.clusters key c1 }
    (key, { m2 with profile_to_proxy := aset m2.profile_to_proxy profile_id key })

/-- ClusterManager._remove_profile_from_proxy. -/
def remove_profile_from_proxy (m : ClusterManager) (profile_id : String)
    (proxy_key : Option String) : ClusterManager :=
  match alookup m.clusters proxy_key with
  | some c =>
    if profile_id ∈ c.active_profiles then
      let c1 := { c with active_profiles := c.active_profiles.erase profile_id }
      { m with clusters := aset m.clusters proxy_key c1 }
    else m
  | none => m

/-- ClusterManager._reassign_profile_if_needed, inlined into the bulk
assignment loop: skip a profile already on the target, otherwise remove
it from its truthy current proxy, add it to the target Cluster and store
the target (with no truthiness check) in the map. -/
def reassign_profile_if_needed (m : ClusterManager) (profile_id : String)
    (target : String) : ClusterManager :=
  let cur := dictGetP m profile_id
  if cur = some target then m
  else
    let m1 := if pyTruthyStr cur then remove_profile_from_proxy m profile_id cur else m
    let m2 := match alookup m1.clusters (some target) with
      | some c =>
        { m1 with clusters := aset m1.clusters (some target) (c.add_profile profile_id) }
      | none => m1
    { m2 with profile_to_proxy := aset m2.profile_to_proxy profile_id (some target) }

/-- ClusterManager.assign_profiles_to_proxy (bulk reassignment): ensure
the target Cluster exists, then reassign each profile. -/
def assign_profiles_to_proxy (m : ClusterManager) (profile_ids : List String)
    (proxy_id : String) : ClusterManager :=
  let pair := get_or_create_cluster m (some proxy_id)
  profile_ids.foldl (fun acc pid => reassign_profile_if_needed acc pid proxy_id) pair.2

/-- Manager state produced by bulk-assigning the profile alice to the
empty-string proxy id — a state the public API can reach. -/
def cexManager : ClusterManager := assign_profiles_to_proxy {} ["alice"] ""

/-- C8 counterexample: the claim promises that a second assign call for an
owner that already has a resource assignment returns that same resource id
and changes nothing.  On the code the check is Python truthiness, so an
owner whose stored assignment is the empty string (storable through the
bulk reassignment API) is treated as unassigned: the next assign call
returns a different resource and rewrites the map. -/
theorem assign_empty_string_cex :
    dictGetP cexManager "alice" = some "" ∧
    (ensure_profile_assigned cexManager "alice" none ["A"]).1 = some "A" ∧
    dictGetP (ensure_profile_assigned cexManager "alice" none ["A"]).2 "alice" =
      some "A" :=
  ⟨rfl, rfl, rfl⟩

/-- When every earlier candidate has a cluster and pid has none, the
selection loop short-circuits at pid. -/
theorem selectBestAux_unused (m : ClusterManager) (pid : String)
    (pids2 : List String) (hpid : alookup m.clusters (some pid) = none) :
    ∀ (pids1 : List String) (best : Option String) (minp : Option Nat),
    (∀ q ∈ pids1, (alookup m.clusters (some q)).isSome = true) →
    selectBestAux m (pids1 ++ pid :: pids2) best minp = some pid := by
  intro pids1
  induction pids1 with
  | nil =>
    intro best minp _
    simp [selectBestAux, hpid]
  | cons q qs ih =>
    intro best minp hall
    have hq := hall q (List.mem_cons_self q qs)
    cases hc : alookup m.clusters (some q) with
    | none => rw [hc] at hq; simp at hq
    | some c =>
      have hrest : ∀ r ∈ qs, (alookup m.clusters (some r)).isSome = true :=
        fun r hr => hall r (List.mem_cons_of_mem q hr)
      simp only [List.cons_append, selectBestAux, hc]
      by_cases hlt : (match minp with
          | none => true
          | some mp => decide (c.active_profiles.length < mp)) = true
      · rw [if_pos hlt]
        exact ih _ _ hrest
      · rw [if_neg hlt]
        exact ih _ _ hrest

/-- When every candidate has a cluster, the selection loop returns a
candidate whose cluster has a minimal number of active profiles (also
minimal against the incoming best). -/
theorem selectBestAux_spec (m : ClusterManager) :
    ∀ (pids : List String) (b : String) (cb : ManagedCluster),
    alookup m.clusters (some b) = some cb →
    (∀ q ∈ pids, ∃ c, alookup m.clusters (some q) = some c) →
    ∃ r cr,
      selectBestAux m pids (some b) (some cb.active_profiles.length) = some r ∧
      alookup m.clusters (some r) = some cr ∧
      cr.active_profiles.length ≤ cb.active_profiles.length ∧
      ∀ q ∈ pids, ∀ cq, alookup m.clusters (some q) = some cq →
        cr.active_profiles.length ≤ cq.active_profiles.length := by
  intro pids
  induction pids with
  | nil =>
    intro b cb hb _
    exact ⟨b, cb, rfl, hb, le_rfl, by simp⟩
  | cons q qs ih =>
    intro b cb hb hall
    obtain ⟨c, hc⟩ := hall q (List.mem_cons_self q qs)
    have hrest : ∀ r ∈ qs, ∃ cr, alookup m.clusters (some r) = some cr :=
      fun r hr => hall r (List.mem_cons_of_mem q hr)
    simp only [selectBestAux, hc]
    by_cases hlt : c.active_profiles.length < cb.active_profiles.length
    · rw [if_pos (by simpa using hlt)]
      obtain ⟨r, cr, hrun, hr, hle, hmin⟩ := ih q c hc hrest
      refine ⟨r, cr, hrun, hr, le_trans hle (le_of_lt hlt), ?_⟩
      intro q2 hq2 cq hcq
      rcases List.mem_cons.mp hq2 with hq2 | hq2
      · subst hq2
        rw [hc] at hcq
        injection hcq with hcq
        rw [← hcq]
        exact hle
      · exact hmin q2 hq2 cq hcq
    · rw [if_neg (by simpa using hlt)]
      obtain ⟨r, cr, hrun, hr, hle, hmin⟩ := ih b cb hb hrest
      refine ⟨r, cr, hrun, hr, hle, ?_⟩
      intro q2 hq2 cq hcq
      rcases List.mem_cons.mp hq2 with hq2 | hq2
      · subst hq2
        rw [hc] at hcq
        injection hcq with hcq
        rw [← hcq]
        exact le_trans hle (not_lt.mp hlt)
      · exact hmin q2 hq2 cq hcq

/-- Manager with one cluster B already holding one owner, used for the
least-loaded scenario. -/
def scenarioManager : ClusterManager :=
  { clusters := [(some "B", { proxy_key := some "B", active_profiles := ["bob"] })],
    profile_to_proxy := [("bob", some "B")] }

/-- C8 amended: assign is idempotent for any existing non-empty
assignment (the empty string, storable via the bulk reassignment API, is
treated as no assignment and reassigned — see the counterexample);
selection returns the first candidate with no existing cluster when one
exists, otherwise a candidate whose cluster holds a minimal number of
active owners; and a new owner offered ["A", "B"] with A unused and B
holding one owner lands on A. -/
theorem assign_idempotent_and_least_loaded (m : ClusterManager)
    (profile_id p : String) (pidArg : Option String) (allIds : List String)
    (hcur : dictGetP m profile_id = some p) (hne : p ≠ "") :
    ensure_profile_assigned m profile_id pidArg allIds = (some p, m) ∧
    (∀ (m2 : ClusterManager) (pids1 pids2 : List String) (pid : String),
      (∀ q ∈ pids1, (alookup m2.clusters (some q)).isSome = true) →
      alookup m2.clusters (some pid) = none →
      select_best_proxy_id m2 (pids1 ++ pid :: pids2) = some pid) ∧
    (∀ (m2 : ClusterManager) (pid0 : String) (pids : List String),
      (∀ q ∈ pid0 :: pids, ∃ c, alookup m2.clusters (some q) = some c) →
      ∃ r cr, select_best_proxy_id m2 (pid0 :: pids) = some r ∧
        alookup m2.clusters (some r) = some cr ∧
        ∀ q ∈ pid0 :: pids, ∀ cq, alookup m2.clusters (some q) = some cq →
          cr.active_profiles.length ≤ cq.active_profiles.length) ∧
    ((ensure_profile_assigned scenarioManager "carol" none ["A", "B"]).1 = some "A" ∧
     dictGetP (ensure_profile_assigned scenarioManager "carol" none ["A", "B"]).2
       "carol" = some "A") := by
  have hbeq : (p == "") = false := by
    simpa using hne
  refine ⟨?_, ?_, ?_, rfl, rfl⟩
  · simp [ensure_profile_assigned, hcur, pyTruthyStr, hbeq]
  · intro m2 pids1 pids2 pid hall hpid
    exact selectBestAux_unused m2 pid pids2 hpid pids1 none none hall
  · intro m2 pid0 pids hall
    obtain ⟨c0, hc0⟩ := hall pid0 (List.mem_cons_self pid0 pids)
    have hrest : ∀ r ∈ pids, ∃ cr, alookup m2.clusters (some r) = some cr :=
      fun r hr => hall r (List.mem_cons_of_mem pid0 hr)
    obtain ⟨r, cr, hrun, hr, hle, hmin⟩ := selectBestAux_spec m2 pids pid0 c0 hc0 hrest
    refine ⟨r, cr, ?_, hr, ?_⟩
    · simp only [select_best_proxy_id, selectBestAux, hc0, if_pos]
      exact hrun
    · intro q hq cq hcq
      rcases List.mem_cons.mp hq with hq | hq
      · subst hq
        rw [hc0] at hcq
        injection hcq with hcq
        rw [← hcq]
        exact hle
      · exact hmin q hq cq hcq

/-- Witness for assign_idempotent_and_least_loaded at a concrete input:
the scenario manager with owner bob already assigned to B. -/
theorem assign_idempotent_and_least_loaded_witness :
    dictGetP scenarioManager "bob" = some "B" ∧ "B" ≠ "" ∧
    (ensure_profile_assigned scenarioManager "bob" none ["A", "B"] =
        (some "B", scenarioManager) ∧
     (∀ (m2 : ClusterManager) (pids1 pids2 : List String) (pid : String),
       (∀ q ∈ pids1, (alookup m2.clusters (some q)).isSome = true) →
       alookup m2.clusters (some pid) = none →
       select_best_proxy_id m2 (pids1 ++ pid :: pids2) = some pid) ∧
     (∀ (m2 : ClusterManager) (pid0 : String) (pids : List String),
       (∀ q ∈ pid0 :: pids, ∃ c, alookup m2.clusters (some q) = some c) →
       ∃ r cr, select_best_proxy_id m2 (pid0 :: pids) = some r ∧
         alookup m2.clusters (some r) = some cr ∧
         ∀ q ∈ pid0 :: pids, ∀ cq, alookup m2.clusters (some q) = some cq →
           cr.active_profiles.length ≤ cq.active_profiles.length) ∧
     ((ensure_profile_assigned scenarioManager "carol" none ["A", "B"]).1 = some "A" ∧
      dictGetP (ensure_profile_assigned scenarioManager "carol" none ["A", "B"]).2
        "carol" = some "A")) :=
  ⟨rfl, by decide,
    assign_idempotent_and_least_loaded scenarioManager "bob" "B" none ["A", "B"]
      rfl (by decide)⟩

/-- Cluster._should_clear_task: only a real task with an existing,
not-yet-resolved handle is failed during draining. -/
def should_clear_task : QItem → Bool
  | .stopSentinel => false
  | .task t =>
    match t.result_future with
    | none => false
    | some fs => !fs.done

/-- Effect of the draining loop on one popped item: pending handles
receive the "Cluster stopped" error, everything else is untouched. -/
def clearItem : QItem → QItem
  | .stopSentinel => .stopSentinel
  | .task t => .task { t with result_future := resolveErr "Cluster stopped" t.result_future }

/-- Cluster.clear_queue (lines 379-398): pop every item, setting the
"Cluster stopped" error on each task whose handle is not yet resolved;
returns the drained items as the callers holding the handles see them,
plus the cleared count. -/
def clear_queue (q : List QItem) : List QItem × Nat :=
  (q.map clearItem, (q.filter should_clear_task).length)

/-- Cluster.stop (lines 400-428): enqueue the stop sentinel, await the
worker under the 30-second bound, force-cancel it on timeout (both the
normal and the timeout/cancel path continue to the drain; the bound
itself is real time and the worker's exit on the sentinel is covered by
the ClusterStep semantics), then drain whatever remains in the queue.
Returns the emptied cluster and the drained items. -/
def ManagedCluster.stop (c : ManagedCluster) : ManagedCluster × List QItem :=
  ({ c with queue := [] }, (clear_queue (c.queue ++ [.stopSentinel])).1)

/-- ClusterManager.shutdown (lines 611-629): create a stop task per
cluster and gather them all (the stops touch disjoint per-cluster state,
so the concurrent gather is embedded as a map over the clusters), then —
only after every stop has finished — clear the cluster and assignment
maps. -/
def ClusterManager.shutdown (m : ClusterManager) : ClusterManager × List QItem :=
  let drained := (m.clusters.map (fun kc => (kc.2.stop).2)).flatten
  ({ clusters := [], profile_to_proxy := [] }, drained)

/-- Every task item coming out of a drain has a resolved handle if it has
one at all. -/
theorem clear_queue_done (q : List QItem) :
    ∀ it ∈ (clear_queue q).1, ∀ t, it = QItem.task t →
      ∀ fs, t.result_future = some fs → fs.done = true := by
  intro it hit t hts fs hfs
  obtain ⟨it0, hit0, hmap⟩ := List.mem_map.mp hit
  cases it0 with
  | stopSentinel =>
    rw [hts] at hmap
    simp [clearItem] at hmap
  | task t0 =>
    rw [hts] at hmap
    simp only [clearItem, QItem.task.injEq] at hmap
    rw [← hmap] at hfs
    simp only at hfs
    cases hf0 : t0.result_future with
    | none => rw [hf0] at hfs; simp [resolveErr] at hfs
    | some fs0 =>
      rw [hf0] at hfs
      simp only [resolveErr, Option.some.injEq] at hfs
      by_cases hd : fs0.done = true
      · rw [if_pos hd] at hfs
        rw [← hfs]
        exact hd
      · rw [if_neg hd] at hfs
        rw [← hfs]
        rfl

/-- A successful association-list lookup comes from a stored pair. -/
theorem alookup_mem {κ α : Type} [DecidableEq κ] (l : List (κ × α)) (k : κ) (v : α)
    (h : alookup l k = some v) : (k, v) ∈ l := by
  induction l with
  | nil => simp [alookup] at h
  | cons kv rest ih =>
    rcases kv with ⟨k0, v0⟩
    by_cases hk : k0 = k
    · subst hk
      simp [alookup] at h
      subst h
      exact List.mem_cons_self _ _
    · simp only [alookup, if_neg hk] at h
      exact List.mem_cons_of_mem _ (ih h)

/-- C9: shutdown stops every cluster and drains its queue — each drained
task's handle, when present, ends resolved; every task that sat in some
cluster's queue with a pending handle appears among the drained items
carrying the "Cluster stopped" error, and tasks whose handles were
already resolved pass through untouched; the cluster and assignment maps
are empty afterwards (cleared only after all stops, by construction of
the composition). -/
theorem shutdown_drains_all_pending (m : ClusterManager) :
    (m.shutdown).1.clusters = [] ∧
    (m.shutdown).1.profile_to_proxy = [] ∧
    (∀ it ∈ (m.shutdown).2, ∀ t, it = QItem.task t →
      ∀ fs, t.result_future = some fs → fs.done = true) ∧
    (∀ key c, alookup m.clusters key = some c → ∀ t, QItem.task t ∈ c.queue →
      (t.result_future = some .pending →
        QItem.task { t with result_future := some (.resolvedErr "Cluster stopped") } ∈
          (m.shutdown).2) ∧
      (∀ fs, t.result_future = some fs → fs.done = true →
        QItem.task t ∈ (m.shutdown).2)) := by
  refine ⟨rfl, rfl, ?_, ?_⟩
  · intro it hit t hts fs hfs
    obtain ⟨sub, hsub, hin⟩ := List.mem_flatten.mp hit
    obtain ⟨kc, hkc, hmap⟩ := List.mem_map.mp hsub
    rw [← hmap] at hin
    exact clear_queue_done _ it hin t hts fs hfs
  · intro key c hlook t hq
    have hdr : ∀ it2 ∈ (clear_queue (c.queue ++ [.stopSentinel])).1,
        it2 ∈ (m.shutdown).2 := by
      intro it2 hit2
      refine List.mem_flatten.mpr ⟨(clear_queue (c.queue ++ [.stopSentinel])).1, ?_, hit2⟩
      exact List.mem_map.mpr ⟨(key, c), alookup_mem m.clusters key c hlook, rfl⟩
    have hmem : clearItem (QItem.task t) ∈ (clear_queue (c.queue ++ [.stopSentinel])).1 :=
      List.mem_map.mpr ⟨QItem.task t, List.mem_append_left _ hq, rfl⟩
    constructor
    · intro hpend
      have : clearItem (QItem.task t) =
          QItem.task { t with result_future := some (.resolvedErr "Cluster stopped") } := by
        simp [clearItem, hpend, resolveErr, FutureState.done]
      rw [this] at hmem
      exact hdr _ hmem
    · intro fs hfs hdone
      have : clearItem (QItem.task t) = QItem.task t := by
        simp only [clearItem, QItem.task.injEq]
        have : resolveErr "Cluster stopped" t.result_future = t.result_future := by
          rw [hfs]
          exact resolveErr_done _ _ (by rw [hfs] at hfs ⊢; exact hdone)
        simp [this]
      rw [this] at hmem
      exact hdr _ hmem

/-- Task with a pending completion handle, used in the shutdown witness. -/
def pendingTask : ProfileTask := { task_id := "pend", result_future := some .pending }

/-- Task whose handle is already resolved, used in the shutdown witness. -/
def doneTask : ProfileTask :=
  { task_id := "fin", result_future := some (.resolvedOk none) }

/-- Cluster whose queue holds a pending-handle task, a resolved-handle
task and a handle-less task. -/
def clusterW : ManagedCluster :=
  { proxy_key := some "P",
    queue := [.task pendingTask, .task doneTask, .task normTask] }

/-- Manager about to be shut down, holding clusterW. -/
def shutdownManagerW : ClusterManager :=
  { clusters := [(some "P", clusterW)], profile_to_proxy := [("p1", some "P")] }

/-- Witness for shutdown_drains_all_pending at a concrete input: the maps
end empty and the pending task appears among the drained items with the
"Cluster stopped" error set on its handle. -/
theorem shutdown_drains_all_pending_witness :
    (shutdownManagerW.shutdown).1.clusters = [] ∧
    QItem.task { pendingTask with result_future := some (.resolvedErr "Cluster stopped") } ∈
      (shutdownManagerW.shutdown).2 :=
  ⟨(shutdown_drains_all_pending shutdownManagerW).1,
    ((shutdown_drains_all_pending shutdownManagerW).2.2.2 (some "P") clusterW rfl
      pendingTask (List.mem_cons_self _ _)).1 rfl⟩
